import Mathlib

/-!
Shallow embedding of the `remedy_py` Remedy ITSM REST client
(`remedy_py/RemedyAPIClient.py`, constants from `remedy_py/RemedyConstants.py`).

The client is a stateful session object whose methods issue HTTP calls via the
`requests` library.  The embedding makes the effects explicit:

* the session (`self`) is a `ClientState` value threaded through the methods;
* the HTTP transport is a `World`: a queue of pending server responses consumed
  in order plus a log of every request issued, so that theorems can speak about
  which requests a method performed and in which order;
* a Python exception is an explicit `PyError`; a method returns a `PyResult`
  which, like a raised exception, carries the world as it was when the error
  occurred (requests already sent stay in the log);
* Python dicts are insertion-ordered association lists (`dictSet` mirrors
  `d[k] = v`, `dictGet?` mirrors `d[k]`), JSON values are the inductive
  `JsonVal`, and the local file system is passed to `attach_file_to_incident`
  as an optional byte sequence (`none` models any unreadable file).
-/

namespace RemedyPy

/-- A Python exception, as far as the client code can raise one:
`httpError` is `requests.HTTPError` from `raise_for_status`,
`unboundLocal` is `UnboundLocalError` (a local variable read before any
assignment), `keyError`/`indexError`/`typeError` are the corresponding
lookup failures, `notFoundError` is the explicit error the specification
asks for when a query matches no entry (the source never raises it), and
`noResponse` models a transport with no further response. -/
inductive PyError where
  | httpError (status : Nat)
  | unboundLocal (name : String)
  | keyError (key : String)
  | indexError
  | typeError
  | notFoundError
  | noResponse
deriving DecidableEq, Repr

/-- A JSON value (the bodies the client sends and receives). -/
inductive JsonVal where
  | null
  | bool (b : Bool)
  | num (n : Int)
  | str (s : String)
  | arr (elems : List JsonVal)
  | obj (fields : List (String × JsonVal))
deriving Repr

/-- A header mapping: a Python dict from header name to value,
kept as an insertion-ordered association list. -/
abbrev Headers := List (String × String)

/-- Replacing one stored entry by the assigned pair when its key is `k`. -/
def overwriteEntry {α : Type} (k : String) (v : α) (kv : String × α) :
    String × α :=
  if kv.1 == k then (k, v) else kv

/-- Python `d[k] = v` on an insertion-ordered dict: overwrite the entry whose
key equals `k` in place if one exists, otherwise append. -/
def dictSet {α : Type} (d : List (String × α)) (k : String) (v : α) :
    List (String × α) :=
  if d.any (fun kv => kv.1 == k) then
    d.map (overwriteEntry k v)
  else
    d ++ [(k, v)]

/-- Python `d.get(k)`: the value stored under `k`, if any. -/
def dictGet? {α : Type} : List (String × α) → String → Option α
  | [], _ => none
  | kv :: tl, k => if kv.1 == k then some kv.2 else dictGet? tl k

/-- Python `str.lower` on one character, for the ASCII header names the
client handles: the 26 basic latin capitals map to their lower-case forms,
every other character is unchanged. -/
def charLower (c : Char) : Char :=
  match c with
  | 'A' => 'a' | 'B' => 'b' | 'C' => 'c' | 'D' => 'd' | 'E' => 'e'
  | 'F' => 'f' | 'G' => 'g' | 'H' => 'h' | 'I' => 'i' | 'J' => 'j'
  | 'K' => 'k' | 'L' => 'l' | 'M' => 'm' | 'N' => 'n' | 'O' => 'o'
  | 'P' => 'p' | 'Q' => 'q' | 'R' => 'r' | 'S' => 's' | 'T' => 't'
  | 'U' => 'u' | 'V' => 'v' | 'W' => 'w' | 'X' => 'x' | 'Y' => 'y'
  | 'Z' => 'z'
  | c => c

/-- Python `s.lower()` (`key.lower()` in `build_request_headers`). -/
def strLower (s : String) : String := ⟨s.data.map charLower⟩

/-- One part of a `requests` multipart upload: `(filename, content, content_type)`,
with `filename = none` for the `(None, ..., ...)` part. -/
inductive PartContent where
  | bytes (b : List Nat)
  | str (s : String)
  | jsonC (j : JsonVal)
deriving Repr

/-- A file part of a multipart submission, as the `files=` dict holds it. -/
structure FilePart where
  filename : Option String
  content : PartContent
  content_type : String
deriving Repr

/-- The body of an HTTP request, by the keyword the source passes to
`requests.request`: nothing, `data=` url-encoded form fields, `json=` a JSON
value, or `files=` a multipart submission. -/
inductive ReqBody where
  | empty
  | formData (fields : List (String × String))
  | jsonBody (j : JsonVal)
  | multipart (parts : List (String × FilePart))
deriving Repr

/-- One HTTP request as the client issues it. -/
structure HttpRequest where
  method : String
  url : String
  headers : Headers
  body : ReqBody
deriving Repr

/-- One HTTP response as the server produces it: `content` is the raw body
(already decoded to text), `jsonBody` is what `.json()` returns on it. -/
structure HttpResponse where
  status_code : Nat
  content : String
  jsonBody : JsonVal
deriving Repr

/-- The transport: the responses the server will give, consumed in order,
and the log of every request issued so far (in order). -/
structure World where
  pending : List HttpResponse
  log : List HttpRequest
deriving Repr

/-- Outcome of running a piece of client code: a value or a raised exception,
in both cases with the world as it stands (requests already issued stay in
the log even when an exception escapes, as in Python). -/
inductive PyResult (α : Type) where
  | ok (val : α) (w : World)
  | err (e : PyError) (w : World)
deriving Repr

/-- Sequencing: run the continuation on success, propagate a raised error. -/
def PyResult.bind {α β : Type} :
    PyResult α → (α → World → PyResult β) → PyResult β
  | .ok a w, f => f a w
  | .err e w, _ => .err e w

/-- The exception a run raised, if any. -/
def PyResult.errorOf {α : Type} : PyResult α → Option PyError
  | .ok _ _ => none
  | .err e _ => some e

/-- The world (response queue and request log) a run ended in. -/
def PyResult.worldOf {α : Type} : PyResult α → World
  | .ok _ w => w
  | .err _ w => w

@[simp] theorem PyResult.bind_ok {α β : Type} (a : α) (w : World)
    (f : α → World → PyResult β) : (PyResult.ok a w).bind f = f a w := rfl

@[simp] theorem PyResult.bind_err {α β : Type} (e : PyError) (w : World)
    (f : α → World → PyResult β) : (PyResult.err e w).bind f = .err e w := rfl

/-- Lift a pure, world-free computation (a JSON lookup chain) into a run. -/
def liftExc {α : Type} (e : Except PyError α) (w : World) : PyResult α :=
  match e with
  | .ok a => .ok a w
  | .error e => .err e w

@[simp] theorem liftExc_ok {α : Type} (a : α) (w : World) :
    liftExc (.ok a) w = .ok a w := rfl

@[simp] theorem liftExc_error {α : Type} (e : PyError) (w : World) :
    liftExc (α := α) (.error e) w = .err e w := rfl

/-- `requests.request(method, url, headers=..., ...)`: consume the next
pending response and append the request to the log.  (The `verify`, `proxies`
and `timeout` keyword arguments configure the transport and carry no
client-visible behaviour, so they are not part of the request record.) -/
def httpRequest (method url : String) (headers : Headers) (body : ReqBody)
    (w : World) : PyResult HttpResponse :=
  match w.pending with
  | [] => .err .noResponse w
  | r :: rest => .ok r ⟨rest, w.log ++ [⟨method, url, headers, body⟩]⟩

/-- `response.raise_for_status()`: raise `requests.HTTPError` on a 4xx/5xx
status, do nothing otherwise. -/
def raise_for_status (response : HttpResponse) (w : World) : PyResult Unit :=
  if 400 ≤ response.status_code then .err (.httpError response.status_code) w
  else .ok () w

/-! Constants from `remedy_py/RemedyConstants.py`. -/

def DEFAULT_HTTP_PORT : Nat := 8008
def DEFAULT_HTTPS_PORT : Nat := 8443
def REQUEST_PREFIX : String := "/arsys/v1/entry"
def DEFAULT_TIMEOUT : Nat := 30

def HTTP_BASE_URL (host : String) (port : Nat) : String :=
  "http://" ++ host ++ ":" ++ toString port ++ "/api"

def HTTPS_BASE_URL (host : String) (port : Nat) : String :=
  "https://" ++ host ++ ":" ++ toString port ++ "/api"

/-- `os.sep` on the POSIX systems the library targets. -/
def sep : String := "/"

/-- Python `a or b` for an optional numeric argument (`port or DEFAULT_..._PORT`):
`None` and `0` are falsy. -/
def pyOrNat (a : Option Nat) (b : Nat) : Nat :=
  match a with
  | none => b
  | some n => if n = 0 then b else n

/-- Python `a or b` for a string argument (`view_access or "Public"`):
`None` and the empty string are falsy. -/
def pyOrStr (a : Option String) (b : String) : String :=
  match a with
  | none => b
  | some s => if s = "" then b else s

/-- The fields of a `RemedyClient` instance (`self`), as `__init__` sets them:
connection parameters, the derived `base_url`, the fixed auth headers, the
`isLoggedin` flag and the cached request headers.  `prefixPath` embeds the
source's `self.prefix` (renamed: `prefix` is a Lean keyword); `proxies` is a
transport configuration with no client-visible behaviour and is omitted. -/
structure ClientState where
  host : String
  username : String
  password : String
  verify : Bool
  timeout : Nat
  port : Nat
  base_url : String
  prefixPath : String
  authHeaders : Headers
  isLoggedin : Bool
  reqHeaders : Headers
deriving Repr

/-- The login request `get_token` issues. -/
def loginRequest (st : ClientState) : HttpRequest :=
  ⟨"POST", st.base_url ++ "/jwt/login", st.authHeaders,
    .formData [("username", st.username), ("password", st.password)]⟩

/-- `get_token`: POST the credentials to `/jwt/login`, raise on a bad status,
decode the raw body as the token, set `isLoggedin`, return the token. -/
def get_token (st : ClientState) (w : World) : PyResult (String × ClientState) :=
  (httpRequest "POST" (st.base_url ++ "/jwt/login") st.authHeaders
      (.formData [("username", st.username), ("password", st.password)]) w).bind
    fun response w =>
      (raise_for_status response w).bind fun _ w =>
        .ok (response.content, { st with isLoggedin := true }) w

/-- The header dict `build_request_headers` constructs once it holds a token:
start from the `Authorization` entry, write each caller header under its
lower-cased key, then add `content-type: application/json` unless some key
already lower-cases to `content-type`. -/
def mkReqHeaders (token : String) (new_headers : Option Headers) : Headers :=
  let reqHeaders : Headers := [("Authorization", "AR-JWT " ++ token)]
  let reqHeaders :=
    match new_headers with
    | none => reqHeaders
    | some nh => nh.foldl (fun acc kv => dictSet acc (strLower kv.1) kv.2) reqHeaders
  let has_content_type := reqHeaders.any fun kv => "content-type" == strLower kv.1
  if has_content_type then reqHeaders
  else dictSet reqHeaders "content-type" "application/json"

/-- `build_request_headers`: the local `token` is assigned only under
`if not self.isLoggedin`, so on an already-logged-in session the read of
`token` while building the `Authorization` entry raises `UnboundLocalError`;
otherwise `get_token` runs and the headers are built from the fresh token. -/
def build_request_headers (st : ClientState) (new_headers : Option Headers)
    (w : World) : PyResult (Headers × ClientState) :=
  if st.isLoggedin then
    .err (.unboundLocal "token") w
  else
    (get_token st w).bind fun ts w =>
      .ok (mkReqHeaders ts.1 new_headers, ts.2) w

/-- The session as `__init__` has set it up just before it builds the request
headers: connection parameters stored, port and base URL derived, url-encoded
auth headers, `isLoggedin = False`, no cached request headers yet. -/
def initState (host username password : String) (port : Option Nat)
    (verify : Bool) (timeout : Nat) (prefixPath : String) : ClientState :=
  let port' := if verify then pyOrNat port DEFAULT_HTTPS_PORT
               else pyOrNat port DEFAULT_HTTP_PORT
  { host := host, username := username, password := password, verify := verify,
    timeout := timeout, port := port',
    base_url := if verify then HTTPS_BASE_URL host port'
                else HTTP_BASE_URL host port',
    prefixPath := prefixPath,
    authHeaders := [("content-type", "application/x-www-form-urlencoded")],
    isLoggedin := false, reqHeaders := [] }

/-- `RemedyClient.__init__`: store the connection parameters, derive the port
and base URL, set the url-encoded auth headers and `isLoggedin = False`, then
build (and thereby fetch) the request headers and cache them on the session. -/
def RemedyClient_init (host username password : String) (port : Option Nat)
    (verify : Bool) (timeout : Nat) (prefixPath : String) (w : World) :
    PyResult ClientState :=
  let st := initState host username password port verify timeout prefixPath
  (build_request_headers st none w).bind fun hs w =>
    .ok { hs.2 with reqHeaders := hs.1 } w

/-- `release_token`: when logged in, POST `/jwt/logout`, raise on a bad
status, decode the body (or take `{}` when empty), clear `isLoggedin` and
return `(body, status)`.  When not logged in the `else` branch assigns
`response = {}` but the final `return response_json, response_status_code`
reads the never-assigned local `response_json`, raising `UnboundLocalError`. -/
def release_token (st : ClientState) (w : World) :
    PyResult ((JsonVal × Nat) × ClientState) :=
  if st.isLoggedin then
    (httpRequest "POST" (st.base_url ++ "/jwt/logout") st.reqHeaders .empty w).bind
      fun response w =>
        (raise_for_status response w).bind fun _ w =>
          let response_json := if response.content ≠ "" then response.jsonBody
                               else .obj []
          .ok ((response_json, response.status_code),
               { st with isLoggedin := false }) w
  else
    .err (.unboundLocal "response_json") w

/-! Form-entry operations. -/

/-- Python `str(...)` of a list of strings, as `"...{}".format(field_list)`
renders the list `["Incident Number"]` into the URL: the `repr` of each
element (single-quoted) joined by `", "` inside square brackets. -/
def pyStrOfList (xs : List String) : String :=
  "[" ++ String.intercalate ", " (xs.map fun x => "'" ++ x ++ "'") ++ "]"

/-- The value of the source's `field_list` local in `create_form_entry`: a
Python *list* when `return_values` is empty, a joined *string* otherwise. -/
inductive StrOrList where
  | s (v : String)
  | l (v : List String)
deriving Repr

/-- Python `"{}".format(x)` on a `field_list` value: a string formats to
itself, a list to its `str(...)` rendering. -/
def pyFormatArg : StrOrList → String
  | .s v => v
  | .l v => pyStrOfList v

/-- The URL of a single entry, `<base_url><prefix>/<form_name>/<req_id>`. -/
def entryUrl (st : ClientState) (form_name req_id : String) : String :=
  st.base_url ++ st.prefixPath ++ "/" ++ form_name ++ "/" ++ req_id

/-- `create_form_entry`: build the `fields=values(...)` URL from
`return_values` (default `[]` turns into the Python list
`["Incident Number"]`, a non-empty list into `", ".join(return_values)`),
pick the cached or freshly built headers, POST `{"values": values}` and
return `(body, status)`. -/
def create_form_entry (st : ClientState) (form_name : String) (values : JsonVal)
    (headers : Option Headers) (return_values : List String)
    (w : World) : PyResult ((JsonVal × Nat) × ClientState) :=
  let field_list : StrOrList :=
    if return_values.length = 0 then .l ["Incident Number"]
    else .s (String.intercalate ", " return_values)
  let url := st.base_url ++ st.prefixPath ++ "/" ++ form_name
      ++ "?fields=values(" ++ pyFormatArg field_list ++ ")"
  let withHeaders :=
    match headers with
    | none => PyResult.ok (st.reqHeaders, st) w
    | some h => build_request_headers st (some h) w
  withHeaders.bind fun hs w =>
    let entry := JsonVal.obj [("values", values)]
    (httpRequest "POST" url hs.1 (.jsonBody entry) w).bind fun response w =>
      (raise_for_status response w).bind fun _ w =>
        .ok ((response.jsonBody, response.status_code), hs.2) w

/-- `get_form_entry`: GET the entry URL with the cached headers and return
`(body, status)`. -/
def get_form_entry (st : ClientState) (form_name req_id : String) (w : World) :
    PyResult (JsonVal × Nat) :=
  (httpRequest "GET" (entryUrl st form_name req_id) st.reqHeaders .empty w).bind
    fun response w =>
      (raise_for_status response w).bind fun _ w =>
        .ok (response.jsonBody, response.status_code) w

/-- `update_form_entry`: PUT `{"values": values}` to the entry URL, keep the
PUT status, immediately re-fetch the entry with `get_form_entry`, and return
the freshly fetched body with the PUT status code. -/
def update_form_entry (st : ClientState) (form_name req_id : String)
    (values : JsonVal) (w : World) : PyResult (JsonVal × Nat) :=
  let entry := JsonVal.obj [("values", values)]
  (httpRequest "PUT" (entryUrl st form_name req_id) st.reqHeaders
      (.jsonBody entry) w).bind fun response w =>
    (raise_for_status response w).bind fun _ w =>
      let status_code := response.status_code
      (get_form_entry st form_name req_id w).bind fun ui w =>
        .ok (ui.1, status_code) w

/-- `delete_form_entry`: DELETE the entry URL; return the decoded body when
one is present, `{}` otherwise, with the status code. -/
def delete_form_entry (st : ClientState) (form_name req_id : String)
    (w : World) : PyResult (JsonVal × Nat) :=
  (httpRequest "DELETE" (entryUrl st form_name req_id) st.reqHeaders .empty w).bind
    fun response w =>
      (raise_for_status response w).bind fun _ w =>
        let response_json := if response.content ≠ "" then response.jsonBody
                             else .obj []
        .ok (response_json, response.status_code) w

/-- The URL `advanced_query` builds:
`<base><prefix>/<form_name>?[fields=values(a, b)&]q=<query>`. -/
def advancedQueryUrl (st : ClientState) (form_name query : String)
    (return_values : Option (List String)) : String :=
  let fields :=
    match return_values with
    | none => ""
    | some rv => "fields=values(" ++ String.intercalate ", " rv ++ ")&"
  st.base_url ++ st.prefixPath ++ "/" ++ form_name ++ "?" ++ fields ++ "q=" ++ query

/-- `advanced_query`: GET the query URL with the cached headers and return
`(body, status)`. -/
def advanced_query (st : ClientState) (form_name query : String)
    (return_values : Option (List String)) (w : World) :
    PyResult (JsonVal × Nat) :=
  (httpRequest "GET" (advancedQueryUrl st form_name query return_values)
      st.reqHeaders .empty w).bind fun response w =>
    (raise_for_status response w).bind fun _ w =>
      .ok (response.jsonBody, response.status_code) w

/-! The composite incident operations. -/

/-- Python `d[k]` on a JSON value: `KeyError` when the key is absent,
`TypeError` when the value is not an object. -/
def pyGetItem (j : JsonVal) (k : String) : Except PyError JsonVal :=
  match j with
  | .obj fields =>
    match dictGet? fields k with
    | some v => .ok v
    | none => .error (.keyError k)
  | _ => .error .typeError

/-- Python `l[i]` on a JSON value: `IndexError` past the end,
`TypeError` when the value is not a sequence. -/
def pyIndex (j : JsonVal) (i : Nat) : Except PyError JsonVal :=
  match j with
  | .arr elems =>
    match elems.get? i with
    | some v => .ok v
    | none => .error .indexError
  | _ => .error .typeError

/-- The unchecked lookup `incident['entries'][0]["values"]["Entry ID"]` both
composite operations perform on the query result. -/
def entryIdOf (incident : JsonVal) : Except PyError JsonVal := do
  let entries ← pyGetItem incident "entries"
  let first ← pyIndex entries 0
  let vals ← pyGetItem first "values"
  pyGetItem vals "Entry ID"

/-- Python `str(...)`, as `"{}".format(...)` interpolates the entry id into
the URL: in the Remedy payloads the `Entry ID` field is a JSON string, so
only the string case arises; other values fall back to their rendering. -/
def pyStrOfJson : JsonVal → String
  | .str s => s
  | j => toString (repr j)

/-- The qualification string `'Incident Number'="<req_id>"`. -/
def incidentNumberQuery (req_id : String) : String :=
  "'Incident Number'=\"" ++ req_id ++ "\""

/-- The entry-resolution GET both composite operations issue. -/
def queryRequest (st : ClientState) (form_name req_id : String) : HttpRequest :=
  ⟨"GET", advancedQueryUrl st form_name (incidentNumberQuery req_id)
      (some ["Entry ID"]), st.reqHeaders, .empty⟩

/-- The cap on attachment content, `10 * 1024 * 1024` bytes. -/
def MAX_ATTACHMENT_SIZE : Nat := 10 * 1024 * 1024

/-- The `try` block reading the attachment: `file = none` models any failure
(missing file, permission, ...), turning the content into the literal
placeholder string; otherwise, when the size is at least 10 MiB, seek to
10 MiB before the end and read the tail, else read the whole file. -/
def readAttachmentContent (path : String) (file : Option (List Nat)) :
    PartContent :=
  match file with
  | none => .str ("File " ++ path ++ " could not be read")
  | some bytes =>
    let size := bytes.length
    if MAX_ATTACHMENT_SIZE ≤ size then
      .bytes (bytes.drop (size - MAX_ATTACHMENT_SIZE))
    else
      .bytes bytes

/-- `attach_file_to_incident`: resolve the incident's `Entry ID` with an
`advanced_query` on the incident number, take the first entry of the result
unchecked, read the (possibly truncated or unreadable) file content, PUT the
two-part multipart submission to the entry URL with only the `Authorization`
header, raise on a bad status, re-fetch the entry and return the fetched
body with the PUT's status code. -/
def attach_file_to_incident (st : ClientState)
    (req_id filepath filename form_name content_type : String)
    (details view_access : Option String) (file : Option (List Nat))
    (w : World) : PyResult (JsonVal × Nat) :=
  (advanced_query st form_name (incidentNumberQuery req_id)
      (some ["Entry ID"]) w).bind fun iq w =>
    (liftExc (entryIdOf iq.1) w).bind fun entry_id w =>
      let values := JsonVal.obj
        [("z1D_Details", .str (match details with
            | some d => d
            | none => "No details entered")),
         ("z1D_View_Access", .str (match view_access with
            | some v => v
            | none => "Public")),
         ("z1D_Activity_Type", .str "General Information"),
         ("z1D_Secure_Log", .str "Yes"),
         ("z2AF_Act_Attachment_1", .str filename)]
      let content := readAttachmentContent (filepath ++ sep ++ filename) file
      let files : List (String × FilePart) :=
        [("entry", ⟨none, .jsonC (.obj [("values", values)]), "application/json"⟩),
         ("attach-z2AF_Act_Attachment_1", ⟨some filename, content, content_type⟩)]
      let url := entryUrl st form_name (pyStrOfJson entry_id)
      (liftExc (match dictGet? st.reqHeaders "Authorization" with
          | some v => .ok v
          | none => .error (.keyError "Authorization")) w).bind fun auth w =>
        (httpRequest "PUT" url [("Authorization", auth)] (.multipart files) w).bind
          fun response w =>
            (raise_for_status response w).bind fun _ w =>
              let status_code := response.status_code
              (get_form_entry st form_name (pyStrOfJson entry_id) w).bind
                fun ui w => .ok (ui.1, status_code) w

/-- `add_worklog_to_incident`: resolve the incident's `Entry ID` on the fixed
`HPD:Help Desk` form, take the first entry unchecked, PUT the worklog body
(`details` defaulted only when `None`, the other three fields defaulted when
falsy), raise on a bad status, re-fetch the entry and return the fetched
body with the PUT's status code. -/
def add_worklog_to_incident (st : ClientState) (req_id : String)
    (details activity_type view_access secure_log : Option String)
    (w : World) : PyResult (JsonVal × Nat) :=
  let form_name := "HPD:Help Desk"
  (advanced_query st form_name (incidentNumberQuery req_id)
      (some ["Entry ID"]) w).bind fun iq w =>
    (liftExc (entryIdOf iq.1) w).bind fun entry_id w =>
      let values := JsonVal.obj [("values", JsonVal.obj
        [("z1D_Details", .str (match details with
            | some d => d
            | none => "No details entered")),
         ("z1D_View_Access", .str (pyOrStr view_access "Public")),
         ("z1D_Activity_Type", .str (pyOrStr activity_type "General Information")),
         ("z1D_Secure_Log", .str (pyOrStr secure_log "Yes"))])]
      let url := entryUrl st form_name (pyStrOfJson entry_id)
      (httpRequest "PUT" url st.reqHeaders (.jsonBody values) w).bind
        fun response w =>
          (raise_for_status response w).bind fun _ w =>
            let status_code := response.status_code
            (get_form_entry st form_name (pyStrOfJson entry_id) w).bind
              fun ui w => .ok (ui.1, status_code) w

/-! Concrete fixtures for the witness and counterexample theorems below. -/

/-- A query response body holding exactly one matching entry whose
`Entry ID` value is `eid`, the shape `advanced_query` returns for a
unique incident match. -/
def singleEntryResult (eid : String) : JsonVal :=
  .obj [("entries", .arr [.obj [("values", .obj [("Entry ID", .str eid)])]])]

/-- A session as it stands right after a successful construction:
logged in, with the cached headers `__init__` builds. -/
def stW : ClientState :=
  { host := "rem.example.com", username := "user", password := "pw",
    verify := true, timeout := DEFAULT_TIMEOUT, port := DEFAULT_HTTPS_PORT,
    base_url := HTTPS_BASE_URL "rem.example.com" DEFAULT_HTTPS_PORT,
    prefixPath := REQUEST_PREFIX,
    authHeaders := [("content-type", "application/x-www-form-urlencoded")],
    isLoggedin := true,
    reqHeaders := [("Authorization", "AR-JWT tok0"),
                   ("content-type", "application/json")] }

/-- The same session before any login: not authenticated, no cached headers. -/
def stW0 : ClientState :=
  { stW with isLoggedin := false, reqHeaders := [] }

/-! Theorems.  First, lemmas about the character, dictionary and fold
operations `build_request_headers` is built from. -/

/-- ASCII lowercasing never produces a capital letter: no character maps to
`A`, so no lower-cased header name can collide with `Authorization`. -/
theorem charLower_ne_A (c : Char) : charLower c ≠ 'A' := by
  unfold charLower
  split <;> simp_all

/-- ASCII lowercasing is idempotent. -/
theorem charLower_idem (c : Char) : charLower (charLower c) = charLower c := by
  generalize hd : charLower c = d
  unfold charLower at hd
  split at hd <;> subst hd
  all_goals first
    | decide
    | (unfold charLower; split <;> simp_all)

/-- Python `lower()` is idempotent, so an already-lower-cased stored key
lower-cases to itself in the `content-type` scan. -/
theorem strLower_idem (s : String) : strLower (strLower s) = strLower s := by
  show String.mk ((s.data.map charLower).map charLower)
      = String.mk (s.data.map charLower)
  rw [List.map_map]
  congr 1
  induction s.data with
  | nil => rfl
  | cons c cs ih => simp [ih, charLower_idem, Function.comp]

/-- No caller-supplied header key, once lower-cased, can overwrite the
`Authorization` entry (its capital `A` is unreachable by `lower()`). -/
theorem strLower_ne_Authorization (s : String) : strLower s ≠ "Authorization" := by
  intro h
  have hdata : s.data.map charLower = "Authorization".data :=
    congrArg String.data h
  have hA : "Authorization".data = 'A' :: "uthorization".data := rfl
  rw [hA] at hdata
  cases hs : s.data with
  | nil => rw [hs] at hdata; exact absurd hdata (by simp)
  | cons c cs =>
    rw [hs] at hdata
    simp only [List.map_cons, List.cons.injEq] at hdata
    exact charLower_ne_A c hdata.1

/-- A false Boolean is false. -/
theorem bool_eq_false {b : Bool} (h : ¬ b = true) : b = false := by
  cases b
  · rfl
  · exact absurd rfl h

/-- `dictGet?` on a nonempty dict, unfolded. -/
theorem dictGet?_cons {α : Type} (x : String × α) (tl : List (String × α))
    (q : String) :
    dictGet? (x :: tl) q = if x.1 == q then some x.2 else dictGet? tl q := rfl

/-- Overwriting hits an entry whose key is `k`. -/
theorem overwriteEntry_pos {α : Type} (k : String) (v : α) (x : String × α)
    (h : (x.1 == k) = true) : overwriteEntry k v x = (k, v) := by
  unfold overwriteEntry; rw [if_pos h]

/-- Overwriting leaves an entry with a different key unchanged. -/
theorem overwriteEntry_neg {α : Type} (k : String) (v : α) (x : String × α)
    (h : (x.1 == k) = false) : overwriteEntry k v x = x := by
  unfold overwriteEntry; rw [h]; simp

/-- In-place overwriting under key `k` does not change the value looked up
under a different key `q`. -/
theorem dictGet?_overwrite_ne {α : Type} (k q : String) (v : α)
    (h : (k == q) = false) (d : List (String × α)) :
    dictGet? (d.map (overwriteEntry k v)) q = dictGet? d q := by
  induction d with
  | nil => rfl
  | cons x tl ih =>
    rw [List.map_cons]
    by_cases hxk : (x.1 == k) = true
    · have hx : x.1 = k := by simpa using hxk
      rw [overwriteEntry_pos k v x hxk, dictGet?_cons, dictGet?_cons]
      simp [hx, h, ih]
    · rw [overwriteEntry_neg k v x (bool_eq_false hxk), dictGet?_cons,
        dictGet?_cons]
      by_cases hxq : (x.1 == q) = true <;> simp [hxq, ih]

/-- Appending an entry under key `k` does not change the value looked up
under a different key `q`. -/
theorem dictGet?_append_single_ne {α : Type} (k q : String) (v : α)
    (h : (k == q) = false) (d : List (String × α)) :
    dictGet? (d ++ [(k, v)]) q = dictGet? d q := by
  induction d with
  | nil => simp [dictGet?, h]
  | cons x tl ih =>
    rw [List.cons_append, dictGet?_cons, dictGet?_cons]
    by_cases hxq : (x.1 == q) = true <;> simp [hxq, ih]

/-- After an in-place overwrite under a present key, the lookup returns the
new value. -/
theorem dictGet?_overwrite_self {α : Type} (k : String) (v : α)
    (d : List (String × α)) :
    (d.any (fun kv => kv.1 == k) = true) →
    dictGet? (d.map (overwriteEntry k v)) k = some v := by
  induction d with
  | nil => intro h; simp at h
  | cons x tl ih =>
    intro h
    rw [List.map_cons]
    by_cases hxk : (x.1 == k) = true
    · rw [overwriteEntry_pos k v x hxk, dictGet?_cons]
      simp
    · have h' : tl.any (fun kv => kv.1 == k) = true := by
        simpa [List.any_cons, bool_eq_false hxk] using h
      rw [overwriteEntry_neg k v x (bool_eq_false hxk), dictGet?_cons]
      simp [bool_eq_false hxk, ih h']

/-- After appending an entry under an absent key, the lookup returns the
new value. -/
theorem dictGet?_append_single_self {α : Type} (k : String) (v : α)
    (d : List (String × α)) :
    (d.any (fun kv => kv.1 == k) = false) →
    dictGet? (d ++ [(k, v)]) k = some v := by
  induction d with
  | nil => intro h; simp [dictGet?]
  | cons x tl ih =>
    intro h
    rw [List.any_cons] at h
    have hx : (x.1 == k) = false := by
      cases hv : x.1 == k
      · rfl
      · rw [hv] at h; simp at h
    have h' : tl.any (fun kv => kv.1 == k) = false := by
      cases hv : tl.any (fun kv => kv.1 == k)
      · rfl
      · rw [hv] at h; simp at h
    rw [List.cons_append, dictGet?_cons]
    simp [hx, ih h']

/-- `d[k] = v` followed by a lookup of `k` yields `v`. -/
theorem dictGet?_dictSet_self {α : Type} (d : List (String × α)) (k : String)
    (v : α) : dictGet? (dictSet d k v) k = some v := by
  unfold dictSet
  by_cases h : (d.any fun kv => kv.1 == k) = true
  · rw [if_pos h]; exact dictGet?_overwrite_self k v d h
  · rw [if_neg h]
    exact dictGet?_append_single_self k v d (bool_eq_false h)

/-- `d[k] = v` does not change the value looked up under a different key. -/
theorem dictGet?_dictSet_ne {α : Type} (d : List (String × α)) (k q : String)
    (v : α) (h : (k == q) = false) :
    dictGet? (dictSet d k v) q = dictGet? d q := by
  unfold dictSet
  by_cases hc : (d.any fun kv => kv.1 == k) = true
  · rw [if_pos hc]; exact dictGet?_overwrite_ne k q v h d
  · rw [if_neg hc]; exact dictGet?_append_single_ne k q v h d

/-- A key satisfying `P` survives an in-place overwrite (the overwriting key
equals the overwritten one, so `P` transfers). -/
theorem any_key_map_overwrite_of_any {α : Type} (P : String → Bool) (k : String)
    (v : α) (d : List (String × α)) (hd : d.any (fun kv => P kv.1) = true) :
    (d.map (overwriteEntry k v)).any (fun kv => P kv.1) = true := by
  induction d with
  | nil => simp at hd
  | cons x tl ih =>
    rw [List.map_cons, List.any_cons]
    by_cases hx : P x.1 = true
    · by_cases hxk : (x.1 == k) = true
      · have hk : x.1 = k := by simpa using hxk
        rw [overwriteEntry_pos k v x hxk]
        simp [← hk, hx]
      · rw [overwriteEntry_neg k v x (bool_eq_false hxk)]
        simp [hx]
    · have hd' : tl.any (fun kv => P kv.1) = true := by
        simpa [List.any_cons, bool_eq_false hx] using hd
      simp [ih hd']

/-- Overwriting a present key `k` with `P k` makes `P` hold of some key. -/
theorem any_key_map_overwrite_inserted {α : Type} (P : String → Bool)
    (k : String) (v : α) (d : List (String × α)) (hPk : P k = true)
    (h : d.any (fun kv => kv.1 == k) = true) :
    (d.map (overwriteEntry k v)).any (fun kv => P kv.1) = true := by
  induction d with
  | nil => simp at h
  | cons x tl ih =>
    rw [List.map_cons, List.any_cons]
    by_cases hxk : (x.1 == k) = true
    · rw [overwriteEntry_pos k v x hxk]
      simp [hPk]
    · have h' : tl.any (fun kv => kv.1 == k) = true := by
        simpa [List.any_cons, bool_eq_false hxk] using h
      simp [ih h']

/-- When no key satisfies `P` and the written key does not either, still no
key satisfies `P` after the in-place overwrite. -/
theorem any_key_map_overwrite_false {α : Type} (P : String → Bool) (k : String)
    (v : α) (d : List (String × α))
    (hd : d.any (fun kv => P kv.1) = false) (hPk : P k = false) :
    (d.map (overwriteEntry k v)).any (fun kv => P kv.1) = false := by
  induction d with
  | nil => rfl
  | cons x tl ih =>
    rw [List.any_cons] at hd
    have hx : P x.1 = false := by
      cases hv : P x.1
      · rfl
      · rw [hv] at hd; simp at hd
    have htl : tl.any (fun kv => P kv.1) = false := by
      cases hv : tl.any (fun kv => P kv.1)
      · rfl
      · rw [hv] at hd; simp at hd
    rw [List.map_cons, List.any_cons]
    by_cases hxk : (x.1 == k) = true
    · rw [overwriteEntry_pos k v x hxk]
      simp [hPk, ih htl]
    · rw [overwriteEntry_neg k v x (bool_eq_false hxk)]
      simp [hx, ih htl]

/-- A key satisfying `P` survives `d[k] = v`. -/
theorem any_key_dictSet_of_any {α : Type} (P : String → Bool) (k : String)
    (v : α) (d : List (String × α)) (hd : d.any (fun kv => P kv.1) = true) :
    (dictSet d k v).any (fun kv => P kv.1) = true := by
  unfold dictSet
  by_cases h : (d.any fun kv => kv.1 == k) = true
  · rw [if_pos h]; exact any_key_map_overwrite_of_any P k v d hd
  · rw [if_neg h]; simp [List.any_append, hd]

/-- After `d[k] = v` with `P k`, some key satisfies `P`. -/
theorem any_key_dictSet_inserted {α : Type} (P : String → Bool) (k : String)
    (v : α) (d : List (String × α)) (hPk : P k = true) :
    (dictSet d k v).any (fun kv => P kv.1) = true := by
  unfold dictSet
  by_cases h : (d.any fun kv => kv.1 == k) = true
  · rw [if_pos h]; exact any_key_map_overwrite_inserted P k v d hPk h
  · rw [if_neg h]; simp [List.any_append, hPk]

/-- After `d[k] = v` with neither the dict nor `k` satisfying `P`, still no
key satisfies `P`. -/
theorem any_key_dictSet_false {α : Type} (P : String → Bool) (k : String)
    (v : α) (d : List (String × α))
    (hd : d.any (fun kv => P kv.1) = false) (hPk : P k = false) :
    (dictSet d k v).any (fun kv => P kv.1) = false := by
  unfold dictSet
  by_cases h : (d.any fun kv => kv.1 == k) = true
  · rw [if_pos h]; exact any_key_map_overwrite_false P k v d hd hPk
  · rw [if_neg h]; simp [List.any_append, hd, hPk]

/-- Writing the caller headers under their lower-cased keys preserves (and,
when some caller key lower-cases to `content-type`, establishes) the
presence the `content-type` scan looks for. -/
theorem foldl_headers_any_ct (nh : Headers) (acc : Headers)
    (h : acc.any (fun kv => "content-type" == strLower kv.1) = true
       ∨ nh.any (fun kv => "content-type" == strLower kv.1) = true) :
    (nh.foldl (fun a kv => dictSet a (strLower kv.1) kv.2) acc).any
      (fun kv => "content-type" == strLower kv.1) = true := by
  induction nh generalizing acc with
  | nil =>
    rw [List.foldl_nil]
    rcases h with h | h
    · exact h
    · simp at h
  | cons kv tl ih =>
    rw [List.foldl_cons]
    refine ih _ ?_
    rcases h with h | h
    · exact Or.inl
        (any_key_dictSet_of_any (fun s => "content-type" == strLower s) _ _ _ h)
    · rw [List.any_cons] at h
      rcases Bool.or_eq_true_iff.mp h with hkv | htl
      · refine Or.inl
          (any_key_dictSet_inserted (fun s => "content-type" == strLower s)
            _ _ _ ?_)
        show ("content-type" == strLower (strLower kv.1)) = true
        rw [strLower_idem]
        exact hkv
      · exact Or.inr htl

/-- When no caller key lower-cases to `content-type` and the accumulator has
no such key either, the merged dict still has none. -/
theorem foldl_headers_any_ct_false (nh : Headers) (acc : Headers)
    (hacc : acc.any (fun kv => "content-type" == strLower kv.1) = false)
    (hnh : nh.any (fun kv => "content-type" == strLower kv.1) = false) :
    (nh.foldl (fun a kv => dictSet a (strLower kv.1) kv.2) acc).any
      (fun kv => "content-type" == strLower kv.1) = false := by
  induction nh generalizing acc with
  | nil => exact hacc
  | cons kv tl ih =>
    rw [List.any_cons] at hnh
    have hkv : ("content-type" == strLower kv.1) = false := by
      cases hv : "content-type" == strLower kv.1
      · rfl
      · rw [hv] at hnh; simp at hnh
    have htl : tl.any (fun kv => "content-type" == strLower kv.1) = false := by
      cases hv : tl.any (fun kv => "content-type" == strLower kv.1)
      · rfl
      · rw [hv] at hnh; simp at hnh
    rw [List.foldl_cons]
    refine ih _ ?_ htl
    refine any_key_dictSet_false (fun s => "content-type" == strLower s)
      _ _ _ hacc ?_
    show ("content-type" == strLower (strLower kv.1)) = false
    rw [strLower_idem]
    exact hkv

/-- Merging the caller headers never touches the `Authorization` entry:
every written key is lower-cased and so cannot equal `Authorization`. -/
theorem foldl_headers_dictGet_auth (nh : Headers) (acc : Headers) :
    dictGet? (nh.foldl (fun a kv => dictSet a (strLower kv.1) kv.2) acc)
        "Authorization"
      = dictGet? acc "Authorization" := by
  induction nh generalizing acc with
  | nil => rfl
  | cons kv tl ih =>
    rw [List.foldl_cons, ih]
    refine dictGet?_dictSet_ne _ _ _ _ ?_
    exact beq_eq_false_iff_ne.mpr (strLower_ne_Authorization kv.1)

/-- With no caller headers, the built header dict is the `Authorization`
entry followed by the injected default content type. -/
@[simp] theorem mkReqHeaders_none (token : String) :
    mkReqHeaders token none
      = [("Authorization", "AR-JWT " ++ token),
         ("content-type", "application/json")] := rfl

/-- `mkReqHeaders` on caller headers, unfolded to the merge and the
conditional default injection. -/
theorem mkReqHeaders_some (token : String) (nh : Headers) :
    mkReqHeaders token (some nh)
      = (if (nh.foldl (fun acc kv => dictSet acc (strLower kv.1) kv.2)
              [("Authorization", "AR-JWT " ++ token)]).any
              (fun kv => "content-type" == strLower kv.1) then
          nh.foldl (fun acc kv => dictSet acc (strLower kv.1) kv.2)
            [("Authorization", "AR-JWT " ++ token)]
        else
          dictSet
            (nh.foldl (fun acc kv => dictSet acc (strLower kv.1) kv.2)
              [("Authorization", "AR-JWT " ++ token)])
            "content-type" "application/json") := rfl

/-- C2: on a session that is already logged in (as every session is after
construction), a further `build_request_headers` call does not return a
header mapping with the previously acquired token: the token is never stored
on the session, the `if not self.isLoggedin` guard skips the only assignment
to the local `token`, and the function raises `UnboundLocalError` at the
`Authorization` entry.  The returned world is the input world unchanged, so
no login (or any other) HTTP call is performed. -/
theorem C2_second_header_build_crashes (st : ClientState) (w : World)
    (h : st.isLoggedin = true) :
    build_request_headers st none w = .err (.unboundLocal "token") w := by
  unfold build_request_headers
  rw [if_pos h]

/-- Witness for C2 at a concrete constructed session and empty transport. -/
theorem C2_witness :
    build_request_headers stW none ⟨[], []⟩
      = .err (.unboundLocal "token") ⟨[], []⟩ :=
  C2_second_header_build_crashes stW ⟨[], []⟩ rfl

/-- C3: on a session in the not-authenticated state, `release_token` does not
return `({}, 204)`: the `else` branch assigns `response = {}` but the final
`return` reads the never-assigned local `response_json`, so the call raises
`UnboundLocalError`.  The returned world is the input world unchanged, so the
no-network-call part of the claim does hold. -/
theorem C3_release_token_unauthenticated_crashes (st : ClientState) (w : World)
    (h : st.isLoggedin = false) :
    release_token st w = .err (.unboundLocal "response_json") w := by
  unfold release_token
  rw [h]
  simp

/-- Witness for C3 at a concrete not-authenticated session. -/
theorem C3_witness :
    release_token stW0 ⟨[], []⟩ = .err (.unboundLocal "response_json") ⟨[], []⟩ :=
  C3_release_token_unauthenticated_crashes stW0 ⟨[], []⟩ rfl

/-- C10: construction logs in eagerly.  On a transport whose next response is
a successful login carrying token `lc`, `RemedyClient_init` issues exactly the
login POST and returns the session with `isLoggedin` already true and the
`Authorization: AR-JWT <token>` header already cached; on a failed login
(status at least 400) the constructor itself raises the HTTP error, after the
same single login POST. -/
theorem C10_init_eager_login (host username password : String) (port : Option Nat)
    (verify : Bool) (timeout : Nat) (prefixPath : String)
    (ls : Nat) (lc : String) (lj : JsonVal) (rest : List HttpResponse)
    (log0 : List HttpRequest) :
    (ls < 400 →
      RemedyClient_init host username password port verify timeout prefixPath
          ⟨⟨ls, lc, lj⟩ :: rest, log0⟩
        = .ok { initState host username password port verify timeout prefixPath with
                  isLoggedin := true,
                  reqHeaders := [("Authorization", "AR-JWT " ++ lc),
                                 ("content-type", "application/json")] }
            ⟨rest, log0 ++
              [loginRequest
                (initState host username password port verify timeout prefixPath)]⟩)
    ∧ (400 ≤ ls →
      RemedyClient_init host username password port verify timeout prefixPath
          ⟨⟨ls, lc, lj⟩ :: rest, log0⟩
        = .err (.httpError ls)
            ⟨rest, log0 ++
              [loginRequest
                (initState host username password port verify timeout prefixPath)]⟩) := by
  constructor
  · intro h
    simp [RemedyClient_init, build_request_headers, get_token, httpRequest,
      raise_for_status, loginRequest, initState, Nat.not_le.mpr h]
  · intro h
    simp [RemedyClient_init, build_request_headers, get_token, httpRequest,
      raise_for_status, loginRequest, initState, h]

/-- Witness for C10: a successful construction at status 200 and a failing
one at status 401, both at concrete inputs. -/
theorem C10_witness :
    (RemedyClient_init "rem.example.com" "user" "pw" none true DEFAULT_TIMEOUT
        REQUEST_PREFIX ⟨[⟨200, "tok0", .null⟩], []⟩
      = .ok { initState "rem.example.com" "user" "pw" none true DEFAULT_TIMEOUT
                REQUEST_PREFIX with
                isLoggedin := true,
                reqHeaders := [("Authorization", "AR-JWT " ++ "tok0"),
                               ("content-type", "application/json")] }
          ⟨[], [loginRequest (initState "rem.example.com" "user" "pw" none true
                  DEFAULT_TIMEOUT REQUEST_PREFIX)]⟩)
    ∧ (RemedyClient_init "rem.example.com" "user" "pw" none true DEFAULT_TIMEOUT
        REQUEST_PREFIX ⟨[⟨401, "denied", .null⟩], []⟩
      = .err (.httpError 401)
          ⟨[], [loginRequest (initState "rem.example.com" "user" "pw" none true
                  DEFAULT_TIMEOUT REQUEST_PREFIX)]⟩) :=
  ⟨(C10_init_eager_login "rem.example.com" "user" "pw" none true DEFAULT_TIMEOUT
      REQUEST_PREFIX 200 "tok0" .null [] []).1 (by decide),
   (C10_init_eager_login "rem.example.com" "user" "pw" none true DEFAULT_TIMEOUT
      REQUEST_PREFIX 401 "denied" .null [] []).2 (by decide)⟩

/-- The unchecked entry-id lookup on a one-entry query result. -/
@[simp] theorem entryIdOf_single (eid : String) :
    entryIdOf (singleEntryResult eid) = .ok (.str eid) := rfl

/-- The unchecked entry-id lookup on a query result with no matching entry:
indexing the empty `entries` sequence raises `IndexError`. -/
@[simp] theorem entryIdOf_empty :
    entryIdOf (.obj [("entries", .arr [])]) = .error .indexError := rfl

/-- Interpolating a JSON string into a URL yields the string itself. -/
@[simp] theorem pyStrOfJson_str (s : String) : pyStrOfJson (.str s) = s := rfl

/-- C6 (code bug): with the default empty `return_values`, `create_form_entry`
does not put the well-formed `fields=values(Incident Number)` restriction in
the URL: the source assigns the Python *list* `["Incident Number"]` to
`field_list` where the non-empty branch assigns a joined *string*, so
`"...{}".format(field_list)` renders the list literal and the query parameter
comes out as `fields=values(['Incident Number'])` — bracketed and quoted,
unlike the `fields=values(a, b)` shape of the non-empty case proved in the
second conjunct. -/
theorem C6_default_return_fields_url (st : ClientState) (form_name : String)
    (values : JsonVal) (s : Nat) (hs : s < 400) (c : String) (j : JsonVal)
    (rest : List HttpResponse) (log0 : List HttpRequest)
    (rv : List String) (hrv : rv ≠ []) :
    (create_form_entry st form_name values none [] ⟨⟨s, c, j⟩ :: rest, log0⟩
      = .ok ((j, s), st)
          ⟨rest, log0 ++
            [⟨"POST",
              st.base_url ++ st.prefixPath ++ "/" ++ form_name
                ++ "?fields=values(" ++ "['Incident Number']" ++ ")",
              st.reqHeaders, .jsonBody (.obj [("values", values)])⟩]⟩)
    ∧ (create_form_entry st form_name values none rv ⟨⟨s, c, j⟩ :: rest, log0⟩
      = .ok ((j, s), st)
          ⟨rest, log0 ++
            [⟨"POST",
              st.base_url ++ st.prefixPath ++ "/" ++ form_name
                ++ "?fields=values(" ++ String.intercalate ", " rv ++ ")",
              st.reqHeaders, .jsonBody (.obj [("values", values)])⟩]⟩) := by
  constructor
  · simp [create_form_entry, httpRequest, raise_for_status, pyFormatArg,
      pyStrOfList, Nat.not_le.mpr hs]
    rfl
  · simp [create_form_entry, httpRequest, raise_for_status, pyFormatArg,
      List.length_eq_zero, hrv, Nat.not_le.mpr hs]

/-- Witness for C6 at a concrete session, form and response. -/
theorem C6_witness :
    (create_form_entry stW "HPD:IncidentInterface_Create" (.obj [])
        none [] ⟨[⟨201, "b", .str "CREATED"⟩], []⟩
      = .ok ((.str "CREATED", 201), stW)
          ⟨[], [⟨"POST",
            stW.base_url ++ stW.prefixPath ++ "/" ++ "HPD:IncidentInterface_Create"
              ++ "?fields=values(" ++ "['Incident Number']" ++ ")",
            stW.reqHeaders, .jsonBody (.obj [("values", .obj [])])⟩]⟩)
    ∧ (create_form_entry stW "HPD:IncidentInterface_Create" (.obj [])
        none ["Incident Number", "Request ID"] ⟨[⟨201, "b", .str "CREATED"⟩], []⟩
      = .ok ((.str "CREATED", 201), stW)
          ⟨[], [⟨"POST",
            stW.base_url ++ stW.prefixPath ++ "/" ++ "HPD:IncidentInterface_Create"
              ++ "?fields=values("
              ++ String.intercalate ", " ["Incident Number", "Request ID"] ++ ")",
            stW.reqHeaders, .jsonBody (.obj [("values", .obj [])])⟩]⟩) :=
  C6_default_return_fields_url stW "HPD:IncidentInterface_Create" (.obj [])
    201 (by decide) "b" (.str "CREATED") [] []
    ["Incident Number", "Request ID"] (by decide)

/-- C4: `update_form_entry` issues the PUT first, then a follow-up GET of the
same entry, and returns the freshly fetched body paired with the original
PUT's status code; `attach_file_to_incident` follows the same pairing after
its entry-resolution query.  The final logs exhibit the order of the calls
and that both the write and the read target the same entry URL. -/
theorem C4_write_status_read_body (st : ClientState) (form_name req_id : String)
    (values : JsonVal) (ps gs qs : Nat) (hp : ps < 400) (hg : gs < 400)
    (hq : qs < 400) (pc gc qc : String) (pj gj : JsonVal) (eid : String)
    (log0 log1 : List HttpRequest)
    (filepath filename content_type : String) (details view_access : Option String)
    (file : Option (List Nat)) (auth : String)
    (hauth : dictGet? st.reqHeaders "Authorization" = some auth) :
    (update_form_entry st form_name req_id values
        ⟨[⟨ps, pc, pj⟩, ⟨gs, gc, gj⟩], log0⟩
      = .ok (gj, ps)
          ⟨[], log0 ++
            [⟨"PUT", entryUrl st form_name req_id, st.reqHeaders,
               .jsonBody (.obj [("values", values)])⟩,
             ⟨"GET", entryUrl st form_name req_id, st.reqHeaders, .empty⟩]⟩)
    ∧ (attach_file_to_incident st req_id filepath filename form_name content_type
        details view_access file
        ⟨[⟨qs, qc, singleEntryResult eid⟩, ⟨ps, pc, pj⟩, ⟨gs, gc, gj⟩], log1⟩
      = .ok (gj, ps)
          ⟨[], log1 ++
            [queryRequest st form_name req_id,
             ⟨"PUT", entryUrl st form_name eid, [("Authorization", auth)],
               .multipart
                 [("entry",
                   ⟨none,
                    .jsonC (.obj [("values", .obj
                      [("z1D_Details", .str (match details with
                          | some d => d
                          | none => "No details entered")),
                       ("z1D_View_Access", .str (match view_access with
                          | some v => v
                          | none => "Public")),
                       ("z1D_Activity_Type", .str "General Information"),
                       ("z1D_Secure_Log", .str "Yes"),
                       ("z2AF_Act_Attachment_1", .str filename)])]),
                    "application/json"⟩),
                  ("attach-z2AF_Act_Attachment_1",
                   ⟨some filename,
                    readAttachmentContent (filepath ++ sep ++ filename) file,
                    content_type⟩)]⟩,
             ⟨"GET", entryUrl st form_name eid, st.reqHeaders, .empty⟩]⟩) := by
  constructor
  · simp [update_form_entry, get_form_entry, httpRequest, raise_for_status,
      Nat.not_le.mpr hp, Nat.not_le.mpr hg]
  · simp [attach_file_to_incident, advanced_query, get_form_entry, httpRequest,
      raise_for_status, queryRequest, hauth,
      Nat.not_le.mpr hp, Nat.not_le.mpr hg, Nat.not_le.mpr hq]

/-- Witness for C4: a 204 PUT followed by a 200 GET yields
`(fetched body, 204)`, for both operations, at concrete inputs. -/
theorem C4_witness :
    (update_form_entry stW "HPD:Help Desk" "E7" (.obj [("a", .str "b")])
        ⟨[⟨204, "", .null⟩, ⟨200, "x", .str "FETCHED"⟩], []⟩
      = .ok (.str "FETCHED", 204)
          ⟨[], [⟨"PUT", entryUrl stW "HPD:Help Desk" "E7", stW.reqHeaders,
                  .jsonBody (.obj [("values", .obj [("a", .str "b")])])⟩,
                ⟨"GET", entryUrl stW "HPD:Help Desk" "E7", stW.reqHeaders,
                  .empty⟩]⟩)
    ∧ (attach_file_to_incident stW "E7" "/tmp" "log.txt" "HPD:Help Desk"
        "text/plain" none (some "Public") none
        ⟨[⟨200, "b", singleEntryResult "E9"⟩, ⟨204, "", .null⟩,
          ⟨200, "x", .str "FETCHED"⟩], []⟩
      = .ok (.str "FETCHED", 204)
          ⟨[], [queryRequest stW "HPD:Help Desk" "E7",
                ⟨"PUT", entryUrl stW "HPD:Help Desk" "E9",
                  [("Authorization", "AR-JWT tok0")],
                  .multipart
                    [("entry",
                      ⟨none,
                       .jsonC (.obj [("values", .obj
                         [("z1D_Details", .str (match (none : Option String) with
                             | some d => d
                             | none => "No details entered")),
                          ("z1D_View_Access", .str (match some "Public" with
                             | some v => v
                             | none => "Public")),
                          ("z1D_Activity_Type", .str "General Information"),
                          ("z1D_Secure_Log", .str "Yes"),
                          ("z2AF_Act_Attachment_1", .str "log.txt")])]),
                       "application/json"⟩),
                     ("attach-z2AF_Act_Attachment_1",
                      ⟨some "log.txt",
                       readAttachmentContent ("/tmp" ++ sep ++ "log.txt") none,
                       "text/plain"⟩)]⟩,
                ⟨"GET", entryUrl stW "HPD:Help Desk" "E9", stW.reqHeaders,
                  .empty⟩]⟩) :=
  C4_write_status_read_body stW "HPD:Help Desk" "E7" (.obj [("a", .str "b")])
    204 200 200 (by decide) (by decide) (by decide) "" "x" "b" .null
    (.str "FETCHED") "E9" [] [] "/tmp" "log.txt" "text/plain" none
    (some "Public") none "AR-JWT tok0" rfl

/-- C1 (amended): when the entry-resolution query returns an empty `entries`
sequence, `attach_file_to_incident` and `add_worklog_to_incident` do abort
before attempting any write — the final log holds only the resolution GET —
but they fail with the unchecked `IndexError` of `incident['entries'][0]`,
not with an explicit `NotFoundError`. -/
theorem C1_empty_query_unchecked_index (st : ClientState)
    (req_id filepath filename form_name content_type : String)
    (details activity_type view_access secure_log : Option String)
    (file : Option (List Nat)) (qs : Nat) (hq : qs < 400) (qc : String)
    (rest : List HttpResponse) (log0 : List HttpRequest) :
    (attach_file_to_incident st req_id filepath filename form_name content_type
        details view_access file
        ⟨⟨qs, qc, .obj [("entries", .arr [])]⟩ :: rest, log0⟩
      = .err .indexError ⟨rest, log0 ++ [queryRequest st form_name req_id]⟩)
    ∧ (add_worklog_to_incident st req_id details activity_type view_access
        secure_log ⟨⟨qs, qc, .obj [("entries", .arr [])]⟩ :: rest, log0⟩
      = .err .indexError
          ⟨rest, log0 ++ [queryRequest st "HPD:Help Desk" req_id]⟩) := by
  constructor
  · simp [attach_file_to_incident, advanced_query, httpRequest, raise_for_status,
      queryRequest, Nat.not_le.mpr hq]
  · simp [add_worklog_to_incident, advanced_query, httpRequest, raise_for_status,
      queryRequest, Nat.not_le.mpr hq]

/-- Witness for C1's amended theorem at a concrete session and query reply. -/
theorem C1_witness :
    (attach_file_to_incident stW "INC000000000001" "/tmp" "log.txt"
        "HPD:Help Desk" "text/plain" none (some "Public") none
        ⟨[⟨200, "b", .obj [("entries", .arr [])]⟩], []⟩
      = .err .indexError
          ⟨[], [queryRequest stW "HPD:Help Desk" "INC000000000001"]⟩)
    ∧ (add_worklog_to_incident stW "INC000000000001" (some "note") none none none
        ⟨[⟨200, "b", .obj [("entries", .arr [])]⟩], []⟩
      = .err .indexError
          ⟨[], [queryRequest stW "HPD:Help Desk" "INC000000000001"]⟩) :=
  C1_empty_query_unchecked_index stW "INC000000000001" "/tmp" "log.txt"
    "HPD:Help Desk" "text/plain" (some "note") none (some "Public") none none
    200 (by decide) "b" [] []

/-- Counterexample for C1 as stated: at a concrete empty-entries query reply,
`attach_file_to_incident` raises `IndexError`, which is not the claimed
explicit `NotFoundError`. -/
theorem C1_counterexample :
    (attach_file_to_incident stW "INC000000000001" "/tmp" "log.txt"
        "HPD:Help Desk" "text/plain" none (some "Public") none
        ⟨[⟨200, "b", .obj [("entries", .arr [])]⟩], []⟩).errorOf
      = some .indexError
    ∧ some PyError.indexError ≠ some PyError.notFoundError :=
  ⟨rfl, by decide⟩

/-- On a readable file the content read is always the suffix that starts
10 MiB before the end (the whole file when it is shorter): the `seek` branch
drops `size - 10 MiB` leading bytes, and below the cap that count is zero. -/
theorem readAttachmentContent_some (path : String) (bytes : List Nat) :
    readAttachmentContent path (some bytes)
      = .bytes (bytes.drop (bytes.length - MAX_ATTACHMENT_SIZE)) := by
  show (if MAX_ATTACHMENT_SIZE ≤ bytes.length then
          PartContent.bytes (bytes.drop (bytes.length - MAX_ATTACHMENT_SIZE))
        else PartContent.bytes bytes)
      = PartContent.bytes (bytes.drop (bytes.length - MAX_ATTACHMENT_SIZE))
  split
  · rfl
  · rename_i h
    rw [Nat.sub_eq_zero_of_le (Nat.le_of_not_le h), List.drop_zero]

/-- C5: the content `attach_file_to_incident` submits for a readable file is
the suffix `bytes.drop (size - 10 MiB)`; that suffix has length
`min (10 MiB) size` — so a file of at least 10 MiB (the boundary included)
contributes exactly its final 10 MiB, and a shorter file contributes all of
its bytes — and the dropped prefix and the submitted tail recompose the file. -/
theorem C5_attachment_tail_truncation (st : ClientState)
    (req_id filepath filename form_name content_type : String)
    (details view_access : Option String) (bytes : List Nat) (eid : String)
    (qs ps gs : Nat) (hq : qs < 400) (hp : ps < 400) (hg : gs < 400)
    (qc pc gc : String) (pj gj : JsonVal) (log0 : List HttpRequest)
    (auth : String) (hauth : dictGet? st.reqHeaders "Authorization" = some auth) :
    (attach_file_to_incident st req_id filepath filename form_name content_type
        details view_access (some bytes)
        ⟨[⟨qs, qc, singleEntryResult eid⟩, ⟨ps, pc, pj⟩, ⟨gs, gc, gj⟩], log0⟩
      = .ok (gj, ps)
          ⟨[], log0 ++
            [queryRequest st form_name req_id,
             ⟨"PUT", entryUrl st form_name eid, [("Authorization", auth)],
               .multipart
                 [("entry",
                   ⟨none,
                    .jsonC (.obj [("values", .obj
                      [("z1D_Details", .str (match details with
                          | some d => d
                          | none => "No details entered")),
                       ("z1D_View_Access", .str (match view_access with
                          | some v => v
                          | none => "Public")),
                       ("z1D_Activity_Type", .str "General Information"),
                       ("z1D_Secure_Log", .str "Yes"),
                       ("z2AF_Act_Attachment_1", .str filename)])]),
                    "application/json"⟩),
                  ("attach-z2AF_Act_Attachment_1",
                   ⟨some filename,
                    .bytes (bytes.drop (bytes.length - MAX_ATTACHMENT_SIZE)),
                    content_type⟩)]⟩,
             ⟨"GET", entryUrl st form_name eid, st.reqHeaders, .empty⟩]⟩)
    ∧ (bytes.drop (bytes.length - MAX_ATTACHMENT_SIZE)).length
        = min MAX_ATTACHMENT_SIZE bytes.length
    ∧ bytes.take (bytes.length - MAX_ATTACHMENT_SIZE)
        ++ bytes.drop (bytes.length - MAX_ATTACHMENT_SIZE) = bytes := by
  refine ⟨?_, ?_, List.take_append_drop _ _⟩
  · simp [attach_file_to_incident, advanced_query, get_form_entry, httpRequest,
      raise_for_status, queryRequest, hauth, readAttachmentContent_some,
      Nat.not_le.mpr hp, Nat.not_le.mpr hg, Nat.not_le.mpr hq]
  · rw [List.length_drop]
    omega

/-- Witness for C5 at a concrete three-byte file (below the cap, so the
whole content is submitted and the tail length is `min (10 MiB) 3 = 3`). -/
theorem C5_witness :
    (attach_file_to_incident stW "INC000000000001" "/tmp" "log.txt"
        "HPD:Help Desk" "text/plain" none (some "Public") (some [7, 8, 9])
        ⟨[⟨200, "b", singleEntryResult "E9"⟩, ⟨204, "", .null⟩,
          ⟨200, "x", .str "FETCHED"⟩], []⟩
      = .ok (.str "FETCHED", 204)
          ⟨[], [queryRequest stW "HPD:Help Desk" "INC000000000001",
                ⟨"PUT", entryUrl stW "HPD:Help Desk" "E9",
                  [("Authorization", "AR-JWT tok0")],
                  .multipart
                    [("entry",
                      ⟨none,
                       .jsonC (.obj [("values", .obj
                         [("z1D_Details", .str (match (none : Option String) with
                             | some d => d
                             | none => "No details entered")),
                          ("z1D_View_Access", .str (match some "Public" with
                             | some v => v
                             | none => "Public")),
                          ("z1D_Activity_Type", .str "General Information"),
                          ("z1D_Secure_Log", .str "Yes"),
                          ("z2AF_Act_Attachment_1", .str "log.txt")])]),
                       "application/json"⟩),
                     ("attach-z2AF_Act_Attachment_1",
                      ⟨some "log.txt",
                       .bytes ([7, 8, 9].drop ([7, 8, 9].length - MAX_ATTACHMENT_SIZE)),
                       "text/plain"⟩)]⟩,
                ⟨"GET", entryUrl stW "HPD:Help Desk" "E9", stW.reqHeaders,
                  .empty⟩]⟩)
    ∧ ([7, 8, 9].drop ([7, 8, 9].length - MAX_ATTACHMENT_SIZE)).length
        = min MAX_ATTACHMENT_SIZE [7, 8, 9].length
    ∧ [7, 8, 9].take ([7, 8, 9].length - MAX_ATTACHMENT_SIZE)
        ++ [7, 8, 9].drop ([7, 8, 9].length - MAX_ATTACHMENT_SIZE) = [7, 8, 9] :=
  C5_attachment_tail_truncation stW "INC000000000001" "/tmp" "log.txt"
    "HPD:Help Desk" "text/plain" none (some "Public") [7, 8, 9] "E9"
    200 204 200 (by decide) (by decide) (by decide) "b" "" "x" .null
    (.str "FETCHED") [] "AR-JWT tok0" rfl

/-- C8: when the file cannot be read (`file = none` models any failure), the
attach operation does not fail: the attachment part's content is the literal
placeholder string `"File <path> could not be read"` with the attempted path
`filepath + os.sep + filename` interpolated, the multipart PUT proceeds, and
the operation completes with the usual write-status/read-body result. -/
theorem C8_unreadable_file_placeholder (st : ClientState)
    (req_id filepath filename form_name content_type : String)
    (details view_access : Option String) (eid : String)
    (qs ps gs : Nat) (hq : qs < 400) (hp : ps < 400) (hg : gs < 400)
    (qc pc gc : String) (pj gj : JsonVal) (log0 : List HttpRequest)
    (auth : String) (hauth : dictGet? st.reqHeaders "Authorization" = some auth) :
    attach_file_to_incident st req_id filepath filename form_name content_type
        details view_access none
        ⟨[⟨qs, qc, singleEntryResult eid⟩, ⟨ps, pc, pj⟩, ⟨gs, gc, gj⟩], log0⟩
      = .ok (gj, ps)
          ⟨[], log0 ++
            [queryRequest st form_name req_id,
             ⟨"PUT", entryUrl st form_name eid, [("Authorization", auth)],
               .multipart
                 [("entry",
                   ⟨none,
                    .jsonC (.obj [("values", .obj
                      [("z1D_Details", .str (match details with
                          | some d => d
                          | none => "No details entered")),
                       ("z1D_View_Access", .str (match view_access with
                          | some v => v
                          | none => "Public")),
                       ("z1D_Activity_Type", .str "General Information"),
                       ("z1D_Secure_Log", .str "Yes"),
                       ("z2AF_Act_Attachment_1", .str filename)])]),
                    "application/json"⟩),
                  ("attach-z2AF_Act_Attachment_1",
                   ⟨some filename,
                    .str ("File " ++ (filepath ++ sep ++ filename)
                      ++ " could not be read"),
                    content_type⟩)]⟩,
             ⟨"GET", entryUrl st form_name eid, st.reqHeaders, .empty⟩]⟩ := by
  simp [attach_file_to_incident, advanced_query, get_form_entry, httpRequest,
    raise_for_status, queryRequest, hauth, readAttachmentContent,
    Nat.not_le.mpr hp, Nat.not_le.mpr hg, Nat.not_le.mpr hq]

/-- Witness for C8 at a concrete session and unreadable path. -/
theorem C8_witness :
    attach_file_to_incident stW "INC000000000001" "/tmp" "log.txt"
        "HPD:Help Desk" "text/plain" (some "see log") (some "Public") none
        ⟨[⟨200, "b", singleEntryResult "E9"⟩, ⟨204, "", .null⟩,
          ⟨200, "x", .str "FETCHED"⟩], []⟩
      = .ok (.str "FETCHED", 204)
          ⟨[], [queryRequest stW "HPD:Help Desk" "INC000000000001",
                ⟨"PUT", entryUrl stW "HPD:Help Desk" "E9",
                  [("Authorization", "AR-JWT tok0")],
                  .multipart
                    [("entry",
                      ⟨none,
                       .jsonC (.obj [("values", .obj
                         [("z1D_Details", .str (match some "see log" with
                             | some d => d
                             | none => "No details entered")),
                          ("z1D_View_Access", .str (match some "Public" with
                             | some v => v
                             | none => "Public")),
                          ("z1D_Activity_Type", .str "General Information"),
                          ("z1D_Secure_Log", .str "Yes"),
                          ("z2AF_Act_Attachment_1", .str "log.txt")])]),
                       "application/json"⟩),
                     ("attach-z2AF_Act_Attachment_1",
                      ⟨some "log.txt",
                       .str ("File " ++ ("/tmp" ++ sep ++ "log.txt")
                         ++ " could not be read"),
                       "text/plain"⟩)]⟩,
                ⟨"GET", entryUrl stW "HPD:Help Desk" "E9", stW.reqHeaders,
                  .empty⟩]⟩ :=
  C8_unreadable_file_placeholder stW "INC000000000001" "/tmp" "log.txt"
    "HPD:Help Desk" "text/plain" (some "see log") (some "Public") "E9"
    200 204 200 (by decide) (by decide) (by decide) "b" "" "x" .null
    (.str "FETCHED") [] "AR-JWT tok0" rfl

/-- C9 (amended): the body `add_worklog_to_incident` PUTs maps
`z1D_View_Access`, `z1D_Activity_Type` and `z1D_Secure_Log` through Python's
`or` (any falsy argument, the empty string included, becomes the default),
but `z1D_Details` through `details if details is not None else ...`: only a
`None` details becomes `"No details entered"`, an empty string is kept. -/
theorem C9_worklog_body (st : ClientState) (req_id : String)
    (details activity_type view_access secure_log : Option String)
    (eid : String) (qs ps gs : Nat) (hq : qs < 400) (hp : ps < 400)
    (hg : gs < 400) (qc pc gc : String) (pj gj : JsonVal)
    (log0 : List HttpRequest) :
    add_worklog_to_incident st req_id details activity_type view_access secure_log
        ⟨[⟨qs, qc, singleEntryResult eid⟩, ⟨ps, pc, pj⟩, ⟨gs, gc, gj⟩], log0⟩
      = .ok (gj, ps)
          ⟨[], log0 ++
            [queryRequest st "HPD:Help Desk" req_id,
             ⟨"PUT", entryUrl st "HPD:Help Desk" eid, st.reqHeaders,
               .jsonBody (.obj [("values", .obj
                 [("z1D_Details", .str (match details with
                     | some d => d
                     | none => "No details entered")),
                  ("z1D_View_Access", .str (pyOrStr view_access "Public")),
                  ("z1D_Activity_Type",
                    .str (pyOrStr activity_type "General Information")),
                  ("z1D_Secure_Log", .str (pyOrStr secure_log "Yes"))])])⟩,
             ⟨"GET", entryUrl st "HPD:Help Desk" eid, st.reqHeaders, .empty⟩]⟩ := by
  simp [add_worklog_to_incident, advanced_query, get_form_entry, httpRequest,
    raise_for_status, queryRequest,
    Nat.not_le.mpr hp, Nat.not_le.mpr hg, Nat.not_le.mpr hq]

/-- Witness for C9's amended theorem: with empty-string `details` and `None`
for the other three arguments, the PUT body keeps the empty details and
defaults the rest. -/
theorem C9_witness :
    add_worklog_to_incident stW "INC000000000001" (some "") none none none
        ⟨[⟨200, "b", singleEntryResult "E9"⟩, ⟨204, "", .null⟩,
          ⟨200, "x", .str "FETCHED"⟩], []⟩
      = .ok (.str "FETCHED", 204)
          ⟨[], [queryRequest stW "HPD:Help Desk" "INC000000000001",
                ⟨"PUT", entryUrl stW "HPD:Help Desk" "E9", stW.reqHeaders,
                  .jsonBody (.obj [("values", .obj
                    [("z1D_Details", .str (match some "" with
                        | some d => d
                        | none => "No details entered")),
                     ("z1D_View_Access", .str (pyOrStr none "Public")),
                     ("z1D_Activity_Type",
                       .str (pyOrStr none "General Information")),
                     ("z1D_Secure_Log", .str (pyOrStr none "Yes"))])])⟩,
                ⟨"GET", entryUrl stW "HPD:Help Desk" "E9", stW.reqHeaders,
                  .empty⟩]⟩ :=
  C9_worklog_body stW "INC000000000001" (some "") none none none "E9"
    200 204 200 (by decide) (by decide) (by decide) "b" "" "x" .null
    (.str "FETCHED") []

/-- Counterexample for C9 as stated: with `details = ""` (falsy but not
`None`), the logged PUT body carries `z1D_Details: ""`, not the claimed
default `"No details entered"`. -/
theorem C9_counterexample :
    ((add_worklog_to_incident stW "INC000000000001" (some "") none none none
        ⟨[⟨200, "b", singleEntryResult "E9"⟩, ⟨204, "", .null⟩,
          ⟨200, "x", .str "FETCHED"⟩], []⟩).worldOf.log)[1]?
      = some ⟨"PUT", entryUrl stW "HPD:Help Desk" "E9", stW.reqHeaders,
          .jsonBody (.obj [("values", .obj
            [("z1D_Details", .str ""),
             ("z1D_View_Access", .str "Public"),
             ("z1D_Activity_Type", .str "General Information"),
             ("z1D_Secure_Log", .str "Yes")])])⟩
    ∧ JsonVal.str "" ≠ JsonVal.str "No details entered" :=
  ⟨rfl, by simp⟩

/-- C7: `build_request_headers` (on a not-yet-logged-in session, with the
login succeeding with token `lc`) returns exactly `mkReqHeaders lc extra`,
and that header dict (2) is the bare merge — no default injected — whenever
some caller key lower-cases to `content-type` (any letter case), (3) carries
`content-type: application/json` when no caller key does, and (4) carries
`Authorization: AR-JWT <token>` in every case, since lower-cased caller keys
cannot collide with `Authorization`. -/
theorem C7_content_type_and_authorization (st : ClientState) (extra : Headers)
    (hlog : st.isLoggedin = false) (ls : Nat) (hls : ls < 400) (lc : String)
    (lj : JsonVal) (rest : List HttpResponse) (log0 : List HttpRequest) :
    (build_request_headers st (some extra) ⟨⟨ls, lc, lj⟩ :: rest, log0⟩
      = .ok (mkReqHeaders lc (some extra), { st with isLoggedin := true })
          ⟨rest, log0 ++ [loginRequest st]⟩)
    ∧ (extra.any (fun kv => "content-type" == strLower kv.1) = true →
        mkReqHeaders lc (some extra)
          = extra.foldl (fun acc kv => dictSet acc (strLower kv.1) kv.2)
              [("Authorization", "AR-JWT " ++ lc)])
    ∧ (extra.any (fun kv => "content-type" == strLower kv.1) = false →
        dictGet? (mkReqHeaders lc (some extra)) "content-type"
          = some "application/json")
    ∧ dictGet? (mkReqHeaders lc (some extra)) "Authorization"
        = some ("AR-JWT " ++ lc) := by
  have hacc0 : ([("Authorization", "AR-JWT " ++ lc)] : Headers).any
      (fun kv => "content-type" == strLower kv.1) = false := rfl
  refine ⟨?_, ?_, ?_, ?_⟩
  · simp [build_request_headers, get_token, httpRequest, raise_for_status,
      loginRequest, hlog, Nat.not_le.mpr hls]
  · intro h
    rw [mkReqHeaders_some]
    rw [if_pos (foldl_headers_any_ct extra _ (Or.inr h))]
  · intro h
    rw [mkReqHeaders_some]
    simp only [foldl_headers_any_ct_false extra _ hacc0 h, Bool.false_eq_true,
      if_false]
    exact dictGet?_dictSet_self _ _ _
  · by_cases hct : extra.any (fun kv => "content-type" == strLower kv.1) = true
    · rw [mkReqHeaders_some, if_pos (foldl_headers_any_ct extra _ (Or.inr hct))]
      rw [foldl_headers_dictGet_auth]
      rfl
    · rw [mkReqHeaders_some]
      simp only [foldl_headers_any_ct_false extra _ hacc0 (bool_eq_false hct),
        Bool.false_eq_true, if_false]
      rw [dictGet?_dictSet_ne _ "content-type" "Authorization" _ (by decide)]
      rw [foldl_headers_dictGet_auth]
      rfl

/-- Witness for C7 at the caller mapping `Content-Type: text/plain`
(capitalised) and a successful concrete login. -/
theorem C7_witness :
    (build_request_headers stW0 (some [("Content-Type", "text/plain")])
        ⟨[⟨200, "tok0", .null⟩], []⟩
      = .ok (mkReqHeaders "tok0" (some [("Content-Type", "text/plain")]),
             { stW0 with isLoggedin := true })
          ⟨[], [loginRequest stW0]⟩)
    ∧ (([("Content-Type", "text/plain")] : Headers).any
          (fun kv => "content-type" == strLower kv.1) = true →
        mkReqHeaders "tok0" (some [("Content-Type", "text/plain")])
          = ([("Content-Type", "text/plain")] : Headers).foldl
              (fun acc kv => dictSet acc (strLower kv.1) kv.2)
              [("Authorization", "AR-JWT " ++ "tok0")])
    ∧ (([("Content-Type", "text/plain")] : Headers).any
          (fun kv => "content-type" == strLower kv.1) = false →
        dictGet? (mkReqHeaders "tok0" (some [("Content-Type", "text/plain")]))
            "content-type"
          = some "application/json")
    ∧ dictGet? (mkReqHeaders "tok0" (some [("Content-Type", "text/plain")]))
          "Authorization"
        = some ("AR-JWT " ++ "tok0") :=
  C7_content_type_and_authorization stW0 [("Content-Type", "text/plain")]
    rfl 200 (by decide) "tok0" .null [] []

end RemedyPy
